import Mathlib

/-!
Shallow embedding of the UliSerial repository (Python) in Lean 4.

Sources embedded:
  * src/UliSerial/Printer3D/Marlin.py  (MarlinProtocol, MarlinPrinterThread)
  * src/UliSerial/Find.py              (find_serial_ports, find_serial_port)
  * src/UliSerial/Exceptions.py        (error taxonomy)

Modelling conventions:
  * Python floats are modelled as rationals; `float(s)` becomes `pyFloat`,
    covering finite decimal/scientific literals (not inf/nan/underscores,
    which no telemetry line uses).
  * Python dicts are association lists with in-place overwrite / append
    (`dictSet`), preserving Python's insertion-order semantics; lookups go
    through `dictGet`.
  * `time.time()` is a clock reading passed explicitly as a parameter `t`.
  * Mutation of `self` becomes explicit state passing on
    `MarlinProtocolState` / `PrinterThreadState`; side effects (prints,
    thread joins, transport closes) are returned as explicit effect lists.
  * Exceptions become `Option` / `Except` / explicit effect values.
All recursion is structural so every definition kernel-evaluates.
-/

namespace UliSerial

/-- Python whitespace characters relevant to `str.strip` / `str.split()`. -/
def pyIsSpace (c : Char) : Bool :=
  c = ' ' || c = '\t' || c = '\n' || c = '\r' || c = '\x0b' || c = '\x0c'

/-- Python `str.strip()` on a character list: drop whitespace on both ends. -/
def pyStripList (cs : List Char) : List Char :=
  ((cs.dropWhile pyIsSpace).reverse.dropWhile pyIsSpace).reverse

/-- Python `str.strip()`. -/
def pyStrip (s : String) : String :=
  String.mk (pyStripList s.toList)

/-- Python `str.startswith(pre)`. -/
def pyStartswith (s pre : String) : Bool :=
  pre.toList.isPrefixOf s.toList

/-- Helper for `str.split()` with no argument: accumulate the current token
(reversed) while scanning; whitespace runs separate tokens, empties dropped. -/
def pySplitWsAux : List Char → List Char → List (List Char)
  | acc, [] => if acc.isEmpty then [] else [acc.reverse]
  | acc, c :: cs =>
    if pyIsSpace c then
      if acc.isEmpty then pySplitWsAux [] cs
      else acc.reverse :: pySplitWsAux [] cs
    else pySplitWsAux (c :: acc) cs

/-- Python `str.split()` (no argument): split on whitespace runs, no empties. -/
def pySplitWs (s : String) : List String :=
  (pySplitWsAux [] s.toList).map String.mk

/-- Helper for `str.split(sep)` with a single-character separator. -/
def pySplitCharAux (sep : Char) : List Char → List Char → List (List Char)
  | acc, [] => [acc.reverse]
  | acc, c :: cs =>
    if c = sep then acc.reverse :: pySplitCharAux sep [] cs
    else pySplitCharAux sep (c :: acc) cs

/-- Python `str.split(sep)` for a one-character separator, e.g. `value.split("/")`. -/
def pySplitChar (s : String) (sep : Char) : List String :=
  (pySplitCharAux sep [] s.toList).map String.mk

/-- Core of Python `str.partition(sep)`: find the first occurrence of `pat`;
`some (before, after)` on a hit, `none` when `pat` does not occur. -/
def pyPartitionCore (pat : List Char) : List Char → Option (List Char × List Char)
  | [] => none
  | c :: cs =>
    if pat.isPrefixOf (c :: cs) then some ([], (c :: cs).drop pat.length)
    else
      match pyPartitionCore pat cs with
      | some (a, b) => some (c :: a, b)
      | none => none

/-- Python `s.partition(sep)[::2]`: the text before and after the first
occurrence of `sep`; `(s, "")` when `sep` does not occur. -/
def pyPartition2 (s sep : String) : String × String :=
  match pyPartitionCore sep.toList s.toList with
  | some (a, b) => (String.mk a, String.mk b)
  | none => (s, "")

/-- Python `pat in s` (substring containment), as used by `"Count" in line`
and `"@" in label`. -/
def pyContains (s pat : String) : Bool :=
  (pyPartitionCore pat.toList s.toList).isSome

/-- `line.replace(" /", "/")` specialised to its one call site: Python's
left-to-right non-overlapping replacement of the two-character pattern. -/
def pyJoinSlash : List Char → List Char
  | ' ' :: '/' :: cs => '/' :: pyJoinSlash cs
  | c :: cs => c :: pyJoinSlash cs
  | [] => []

/-- Numeric value of a digit run. -/
def digitsVal (cs : List Char) : Nat :=
  cs.foldl (fun n c => 10 * n + (c.toNat - 48)) 0

/-- All characters are ASCII digits. -/
def allDigits (cs : List Char) : Bool :=
  cs.all Char.isDigit

/-- Split a float literal at the first `e`/`E` (mantissa, optional exponent). -/
def splitExp : List Char → List Char × Option (List Char)
  | [] => ([], none)
  | c :: cs =>
    if c = 'e' || c = 'E' then ([], some cs)
    else
      let r := splitExp cs
      (c :: r.1, r.2)

/-- Parse the unsigned mantissa of a Python float literal — digits,
`digits.digits`, `digits.` or `.digits` (at least one digit) — into the
digit value together with the number of fractional digits. -/
def parseMantissa (cs : List Char) : Option (Nat × Nat) :=
  match pyPartitionCore ['.'] cs with
  | none =>
    if !cs.isEmpty && allDigits cs then some (digitsVal cs, 0) else none
  | some (i, f) =>
    if !(i ++ f).isEmpty && allDigits i && allDigits f then
      some (digitsVal (i ++ f), f.length)
    else none

/-- Parse the exponent part of a Python float literal: optional sign, digits. -/
def parseExpPart : List Char → Option ℤ
  | '+' :: r => if !r.isEmpty && allDigits r then some (digitsVal r) else none
  | '-' :: r => if !r.isEmpty && allDigits r then some (-(digitsVal r : ℤ)) else none
  | cs => if !cs.isEmpty && allDigits cs then some (digitsVal cs) else none

/-- Unsigned Python float literal: mantissa with optional exponent,
assembled as the exact rational `m * 10 ^ (e - fracLen)`. -/
def pyFloatUnsigned (cs : List Char) : Option ℚ :=
  let me := splitExp cs
  match parseMantissa me.1 with
  | none => none
  | some (m, flen) =>
    match (match me.2 with
           | none => some (0 : ℤ)
           | some ecs => parseExpPart ecs) with
    | none => none
    | some e =>
      let k : ℤ := e - flen
      if 0 ≤ k then some (mkRat (m * 10 ^ k.toNat) 1)
      else some (mkRat m (10 ^ (-k).toNat))

/-- Python `float(s)` on finite decimal/scientific literals: strip
whitespace, optional sign, unsigned literal. `none` models the `ValueError`
Python raises on a malformed literal. -/
def pyFloat (s : String) : Option ℚ :=
  match pyStripList s.toList with
  | '+' :: rest => pyFloatUnsigned rest
  | '-' :: rest => (pyFloatUnsigned rest).map Rat.neg
  | cs => pyFloatUnsigned cs

/-- Python dict assignment `d[k] = v`: overwrite in place, else append. -/
def dictSet {α : Type} (k : String) (v : α) : List (String × α) → List (String × α)
  | [] => [(k, v)]
  | (kx, vx) :: rest =>
    if kx = k then (k, v) :: rest else (kx, vx) :: dictSet k v rest

/-- Python dict lookup `d.get(k, None)` / `k in d`. -/
def dictGet {α : Type} (k : String) : List (String × α) → Option α
  | [] => none
  | (kx, vx) :: rest => if kx = k then some vx else dictGet k rest

/-- Deduplicate a key list keeping first occurrences; models building
`set(list(values_mm.keys()) + list(values_steps.keys()))` (Python set
iteration order is unspecified; claims below only inspect lookups). -/
def dedupKeys : List String → List String
  | [] => []
  | k :: ks => k :: (dedupKeys ks).filter (fun kx => kx ≠ k)

/-- `Temperature = namedtuple(..., ["timestamp", "actual", "setpoint"])`;
`setpoint` may be `None`. -/
structure Temperature where
  timestamp : ℚ
  actual : ℚ
  setpoint : Option ℚ
deriving DecidableEq, Repr

/-- `Position = namedtuple(..., ["timestamp", "value", "steps"])`; either
field may be `None` when only one sub-report mentions the axis. -/
structure Position where
  timestamp : ℚ
  value : Option ℚ
  steps : Option ℚ
deriving DecidableEq, Repr

/-- `Report = namedtuple(..., ["timestamp", "line"])`: raw report data. -/
structure Report where
  timestamp : ℚ
  line : String
deriving DecidableEq, Repr

/-- Mutable state of a `MarlinProtocol` instance (`__init__`): the bounded
acknowledgement queue `responses` (front = oldest), the two latest-value
telemetry maps, and the last raw report of each class (`None` initially). -/
structure MarlinProtocolState where
  responses : List String
  temperatures : List (String × Temperature)
  positions : List (String × Position)
  last_temperature_report : Option Report
  last_position_report : Option Report
deriving DecidableEq, Repr

/-- `MarlinProtocol.__init__`: empty queue, empty maps, no raw reports. -/
def MarlinProtocolState.init : MarlinProtocolState :=
  { responses := []
    temperatures := []
    positions := []
    last_temperature_report := none
    last_position_report := none }

/-- Capacity passed to `queue.Queue(32768)` for the acknowledgement queue. -/
def RESPONSES_MAXSIZE : Nat := 32768

/-- `self.responses.put(line)`: append when below capacity; `none` models
the producer blocking on a full queue (no concurrent consumer is modelled). -/
def responsesPut (st : MarlinProtocolState) (line : String) :
    Option MarlinProtocolState :=
  if st.responses.length < RESPONSES_MAXSIZE then
    some { st with responses := st.responses ++ [line] }
  else none

/-- Observable side effects of `handle_line` (its `print` calls). -/
inductive LineEffect where
  | logUnknownLine (line : String)
  | logParseEx (line : String)
deriving DecidableEq, Repr

/-- Loop body of `parse_temperature_report` for one whitespace-separated
token `part` (e.g. `T:20.38/185.00`): partition at the first `:`, skip
labels containing `@`, otherwise store actual/setpoint in `temperatures`.
`none` models the exceptions the body can raise (`float` on a malformed
number, or unpacking `value.split("/")` with more than one `/`). -/
def parse_temperature_part (t : ℚ) (st : MarlinProtocolState)
    (part : String) : Option MarlinProtocolState :=
  let lv := pyPartition2 part ":"
  let label := lv.1
  let value := lv.2
  if pyContains label "@" then
    some st
  else if pyContains value "/" then
    match pySplitChar value '/' with
    | [a, b] =>
      match pyFloat a, pyFloat b with
      | some actual, some setpoint =>
        some { st with temperatures := dictSet label ⟨t, actual, some setpoint⟩ st.temperatures }
      | _, _ => none
    | _ => none
  else
    match pyFloat value with
    | some actual =>
      some { st with temperatures := dictSet label ⟨t, actual, none⟩ st.temperatures }
    | none => none

/-- The `for part in parts` loop of `parse_temperature_report`: process the
tokens left to right; on an exception the earlier updates persist and the
`false` flag records that the loop raised. -/
def parse_temperature_parts (t : ℚ) (st : MarlinProtocolState) :
    List String → MarlinProtocolState × Bool
  | [] => (st, true)
  | p :: ps =>
    match parse_temperature_part t st p with
    | some st1 => parse_temperature_parts t st1 ps
    | none => (st, false)

/-- `MarlinProtocol.parse_temperature_report`: join `" /"` into `"/"`,
split on whitespace, record the (normalized) raw report, then process every
token. The `Bool` is `true` when no exception was raised. -/
def parse_temperature_report (t : ℚ) (st : MarlinProtocolState)
    (line : String) : MarlinProtocolState × Bool :=
  let line1 := String.mk (pyJoinSlash line.toList)
  let parts := pySplitWs line1
  let st1 := { st with last_temperature_report := some ⟨t, line1⟩ }
  parse_temperature_parts t st1 parts

/-- One `label:value` sub-report loop of `parse_position_report`: build a
dict of float values keyed by label; `none` models `float` raising. -/
def parse_position_values : List String → List (String × ℚ) →
    Option (List (String × ℚ))
  | [], acc => some acc
  | p :: ps, acc =>
    let lv := pyPartition2 p ":"
    match pyFloat lv.2 with
    | some v => parse_position_values ps (dictSet lv.1 v acc)
    | none => none

/-- `MarlinProtocol.parse_position_report`: record the raw report, split at
`"Count"` into the millimeter and step-count sub-reports, parse each into a
label→float dict, and merge over the union of labels. The merged dict is
the function's RETURN VALUE — the state's `positions` map is not written.
`none` in the second component models an exception during parsing. -/
def parse_position_report (t : ℚ) (st : MarlinProtocolState)
    (line : String) : MarlinProtocolState × Option (List (String × Position)) :=
  let st1 := { st with last_position_report := some ⟨t, line⟩ }
  let lc :=
    if pyContains line "Count" then
      let p := pyPartition2 line "Count"
      (pyStrip p.1, pyStrip p.2)
    else (line, "")
  match parse_position_values (pySplitWs lc.1) [] with
  | none => (st1, none)
  | some values_mm =>
    match parse_position_values (pySplitWs lc.2) [] with
    | none => (st1, none)
    | some values_steps =>
      let keys := dedupKeys ((values_mm.map Prod.fst) ++ (values_steps.map Prod.fst))
      (st1, some (keys.map (fun k =>
        (k, ⟨t, dictGet k values_mm, dictGet k values_steps⟩))))

/-- `MarlinProtocol.handle_line`: strip, ignore empty lines, then dispatch
on the prefix — `ok` to the acknowledgement queue, `T` to the temperature
parser, `X` to the position parser (whose returned dict is discarded),
anything else logged. The bare `except` catches any parse exception, logs
it, and returns normally. `none` only models the acknowledgement `put`
blocking on a full queue. -/
def handle_line (t : ℚ) (st : MarlinProtocolState) (line : String) :
    Option (MarlinProtocolState × List LineEffect) :=
  let line1 := pyStrip line
  if line1 = "" then some (st, [])
  else if pyStartswith line1 "ok" then
    match responsesPut st line1 with
    | some st1 => some (st1, [])
    | none => none
  else if pyStartswith line1 "T" then
    match parse_temperature_report t st line1 with
    | (st1, true) => some (st1, [])
    | (st1, false) => some (st1, [.logParseEx line1])
  else if pyStartswith line1 "X" then
    match parse_position_report t st line1 with
    | (st1, some _) => some (st1, [])
    | (st1, none) => some (st1, [.logParseEx line1])
  else some (st, [.logUnknownLine line1])

/-- The error raised by a blocking `Queue.get(timeout=...)` that times out
(`queue.Empty` in Python; the spec's AckTimeoutError). -/
inductive AckError where
  | ackTimeout
deriving DecidableEq, Repr

/-- Timeout in seconds passed to `self.responses.get(timeout=30)`. -/
def RESPONSES_GET_TIMEOUT : Nat := 30

/-- `self.responses.get(timeout=...)` in the sequential model: the queue
holds every acknowledgement that has arrived by the end of the wait window,
so an empty queue means no acknowledgement arrives in time and the call
raises the timeout error; otherwise the oldest entry is removed and
returned. -/
def responsesGet (st : MarlinProtocolState) :
    Except AckError (String × MarlinProtocolState) :=
  match st.responses with
  | [] => Except.error AckError.ackTimeout
  | x :: rest => Except.ok (x, { st with responses := rest })

/-- Result of `send_command_receive_response`: the command line written to
the transport (`send_command` / `write_line`), the timeout handed to the
queue, and the outcome of the blocking get. -/
structure AwaitResult where
  written : String
  timeoutSeconds : Nat
  outcome : Except AckError (String × MarlinProtocolState)
deriving Repr

/-- `MarlinProtocol.send_command_receive_response`: write the command, then
block on the acknowledgement queue with `timeout=30`. -/
def send_command_receive_response (st : MarlinProtocolState)
    (command : String) : AwaitResult :=
  { written := command
    timeoutSeconds := RESPONSES_GET_TIMEOUT
    outcome := responsesGet st }

/-- `MarlinProtocol.continous_temperature_reporting` (M155S1). -/
def continous_temperature_reporting (st : MarlinProtocolState) : AwaitResult :=
  send_command_receive_response st "M155S1"

/-- `MarlinProtocol.disable_temperature_reporting` (M155S0). -/
def disable_temperature_reporting (st : MarlinProtocolState) : AwaitResult :=
  send_command_receive_response st "M155S0"

/-- `MarlinProtocol.report_position` (M114). -/
def report_position (st : MarlinProtocolState) : AwaitResult :=
  send_command_receive_response st "M114"

/-- `MarlinProtocol.relative_motion` (G91). -/
def relative_motion (st : MarlinProtocolState) : AwaitResult :=
  send_command_receive_response st "G91"

/-- One round of the acknowledgement round-trip: the reader thread hands
`line` to `handle_line`, then `send_command_receive_response` is issued and
its acknowledgement consumed. `none` models a blocked put or a timeout. -/
def feedAndAwait (t : ℚ) (command : String) (st : MarlinProtocolState)
    (line : String) : Option (String × MarlinProtocolState) :=
  match handle_line t st line with
  | none => none
  | some (st1, _) =>
    match (send_command_receive_response st1 command).outcome with
    | Except.error _ => none
    | Except.ok (resp, st2) => some (resp, st2)

/-- Iterate `feedAndAwait` over a list of incoming acknowledgement lines,
collecting the responses the waiting caller receives, in order. -/
def feedAndAwaitAll (t : ℚ) (command : String) (st : MarlinProtocolState) :
    List String → Option (List String × MarlinProtocolState)
  | [] => some ([], st)
  | l :: ls =>
    match feedAndAwait t command st l with
    | none => none
    | some (resp, st1) =>
      match feedAndAwaitAll t command st1 ls with
      | none => none
      | some (rest, st2) => some (resp :: rest, st2)

/-!  src/UliSerial/Find.py  -/

/-- One entry of `serial.tools.list_ports.comports()`: the port name
(`device`) plus its descriptive attributes. Attribute values are abstracted
to strings compared for equality; a missing key models `hasattr` false. -/
structure PortInfo where
  device : String
  attrs : List (String × String)
deriving DecidableEq, Repr

/-- The inner loop of `find_serial_ports`: a port matches when every
criterion names an existing attribute whose value equals the given one. -/
def portMatches (kwargs : List (String × String)) (port : PortInfo) : Bool :=
  kwargs.all (fun kv =>
    match dictGet kv.1 port.attrs with
    | some v => v = kv.2
    | none => false)

/-- `find_serial_ports(**kwargs)`: the device names of all ports matching
every criterion, in enumeration order. -/
def find_serial_ports (kwargs : List (String × String))
    (ports : List PortInfo) : List String :=
  (ports.filter (portMatches kwargs)).map PortInfo.device

/-- The failure modes of `find_serial_port` (the spec's
PortResolutionError). The code raises `ValueError` with the message "No
ports found matching the criteria." resp. "More than one port found
matching the criteria."; the two messages are modelled as constructors. -/
inductive PortResolutionError where
  | notFound
  | ambiguous
deriving DecidableEq, Repr

/-- `find_serial_port(**kwargs)`: exactly one match returns its name; more
than one raises the ambiguous error; zero raises the not-found error. -/
def find_serial_port (kwargs : List (String × String))
    (ports : List PortInfo) : Except PortResolutionError String :=
  match find_serial_ports kwargs ports with
  | [p] => Except.ok p
  | [] => Except.error PortResolutionError.notFound
  | _ => Except.error PortResolutionError.ambiguous

/-!  MarlinPrinterThread (Marlin.py)  -/

/-- Observable side effects of the supervisor's transitions. -/
inductive ThreadEffect where
  | openReaderThread
  | startPollThread
  | joinPollThread
  | disableTempReporting
  | exitReaderThread
  | closeSerial
deriving DecidableEq, Repr

/-- Mutable state of a `MarlinPrinterThread`: `printer` and `thread` model
whether `self.printer` / `self.thread` hold an object (`None` otherwise);
`close_serial_on_exit` is `self._close_serial_on_exit`; `ser_present`
models `self._ser is not None` (never cleared anywhere in the class). -/
structure PrinterThreadState where
  close_serial_on_exit : Bool
  ser_present : Bool
  printer : Bool
  thread : Bool
  stop_thread : Bool
deriving DecidableEq, Repr

/-- `MarlinPrinterThread.__init__(port)`: a string port opens a new serial
connection (`close_serial_on_exit := true`); an already-open port object is
adopted (`close_serial_on_exit := false`). Either way `_ser` is set,
`printer`/`thread` are `None` and `_stop_thread` is false. -/
def PrinterThreadState.init (portIsString : Bool) : PrinterThreadState :=
  { close_serial_on_exit := portIsString
    ser_present := true
    printer := false
    thread := false
    stop_thread := false }

/-- `MarlinPrinterThread.start()`: enter the reader thread if the printer
is not yet set, then start the polling thread. Returns `self`. -/
def PrinterThreadState.start (st : PrinterThreadState) :
    PrinterThreadState × List ThreadEffect :=
  let a :=
    if !st.printer then ({ st with printer := true }, [ThreadEffect.openReaderThread])
    else (st, [])
  ({ a.1 with thread := true }, a.2 ++ [ThreadEffect.startPollThread])

/-- `MarlinPrinterThread.stop()`: join the polling thread if one was
started, tear down the printer session if one exists, and finally call
`self._ser.close()` whenever this instance opened the serial port itself —
`_ser` is never cleared, so this last step runs on every call. -/
def PrinterThreadState.stop (st : PrinterThreadState) :
    PrinterThreadState × List ThreadEffect :=
  let a :=
    if st.thread then
      ({ st with stop_thread := true, thread := false }, [ThreadEffect.joinPollThread])
    else (st, [])
  let b :=
    if a.1.printer then
      ({ a.1 with printer := false },
        a.2 ++ [ThreadEffect.disableTempReporting, ThreadEffect.exitReaderThread])
    else (a.1, a.2)
  if b.1.close_serial_on_exit && b.1.ser_present then
    (b.1, b.2 ++ [ThreadEffect.closeSerial])
  else (b.1, b.2)

/-- `MarlinPrinterThread.__enter__`: calls `start()` but has no `return`
statement, so the value bound by `with ... as printer` is `None`. -/
def PrinterThreadState.enter (st : PrinterThreadState) :
    (PrinterThreadState × List ThreadEffect) × Option PrinterThreadState :=
  (st.start, none)

/-!  Supporting lemmas  -/

theorem dictGet_dictSet_self {α : Type} (k : String) (v : α)
    (d : List (String × α)) : dictGet k (dictSet k v d) = some v := by
  induction d with
  | nil => simp [dictSet, dictGet]
  | cons hd tl ih =>
    rcases hd with ⟨kx, vx⟩
    by_cases h : kx = k <;> simp [dictSet, dictGet, h, ih]

theorem dictGet_dictSet_ne {α : Type} (k kq : String) (v : α)
    (d : List (String × α)) (h : kq ≠ k) :
    dictGet kq (dictSet k v d) = dictGet kq d := by
  induction d with
  | nil => simp [dictSet, dictGet, Ne.symm h]
  | cons hd tl ih =>
    rcases hd with ⟨kx, vx⟩
    by_cases hk : kx = k
    · subst hk
      simp [dictSet, dictGet, Ne.symm h]
    · by_cases hq : kx = kq <;> simp [dictSet, dictGet, hk, hq, ih, h]

theorem pyStartswith_T_first (s : String) (h : pyStartswith s "T" = true) :
    ∃ l, s.toList = 'T' :: l := by
  have hT : "T".toList = ['T'] := rfl
  unfold pyStartswith at h
  rw [hT] at h
  cases hs : s.toList with
  | nil => rw [hs] at h; simp [List.isPrefixOf] at h
  | cons a l =>
    rw [hs] at h
    simp [List.isPrefixOf] at h
    subst h
    exact ⟨l, rfl⟩

theorem pyStartswith_X_first (s : String) (h : pyStartswith s "X" = true) :
    ∃ l, s.toList = 'X' :: l := by
  have hX : "X".toList = ['X'] := rfl
  unfold pyStartswith at h
  rw [hX] at h
  cases hs : s.toList with
  | nil => rw [hs] at h; simp [List.isPrefixOf] at h
  | cons a l =>
    rw [hs] at h
    simp [List.isPrefixOf] at h
    subst h
    exact ⟨l, rfl⟩

theorem pyStartswith_T_not_ok (s : String) (h : pyStartswith s "T" = true) :
    pyStartswith s "ok" = false := by
  obtain ⟨l, hl⟩ := pyStartswith_T_first s h
  have hok : "ok".toList = ['o', 'k'] := rfl
  unfold pyStartswith
  rw [hok, hl]
  simp [List.isPrefixOf]

theorem pyStartswith_X_not_ok (s : String) (h : pyStartswith s "X" = true) :
    pyStartswith s "ok" = false := by
  obtain ⟨l, hl⟩ := pyStartswith_X_first s h
  have hok : "ok".toList = ['o', 'k'] := rfl
  unfold pyStartswith
  rw [hok, hl]
  simp [List.isPrefixOf]

theorem pyStartswith_X_not_T (s : String) (h : pyStartswith s "X" = true) :
    pyStartswith s "T" = false := by
  obtain ⟨l, hl⟩ := pyStartswith_X_first s h
  have hT : "T".toList = ['T'] := rfl
  unfold pyStartswith
  rw [hT, hl]
  simp [List.isPrefixOf]

theorem pyStartswith_ok_ne_empty (s : String) (h : pyStartswith s "ok" = true) :
    s ≠ "" := by
  intro he
  subst he
  simp [pyStartswith, List.isPrefixOf] at h

theorem pyStartswith_T_ne_empty (s : String) (h : pyStartswith s "T" = true) :
    s ≠ "" := by
  intro he
  subst he
  simp [pyStartswith, List.isPrefixOf] at h

theorem pyStartswith_X_ne_empty (s : String) (h : pyStartswith s "X" = true) :
    s ≠ "" := by
  intro he
  subst he
  simp [pyStartswith, List.isPrefixOf] at h

/-- Behaviour of `handle_line` on an acknowledgement line with queue space:
the stripped line is appended to the queue and nothing else changes. -/
theorem handle_line_ok_case (t : ℚ) (st : MarlinProtocolState) (line : String)
    (hok : pyStartswith (pyStrip line) "ok" = true)
    (hcap : st.responses.length < RESPONSES_MAXSIZE) :
    handle_line t st line =
      some ({ st with responses := st.responses ++ [pyStrip line] }, []) := by
  have hne : pyStrip line ≠ "" := pyStartswith_ok_ne_empty _ hok
  simp [handle_line, hne, hok, responsesPut, hcap]

/-- Any successful step of the temperature loop touches only the
`temperatures` map; every other field of the session state is unchanged. -/
theorem parse_temperature_part_fields (t : ℚ) (st : MarlinProtocolState)
    (p : String) (st1 : MarlinProtocolState)
    (h : parse_temperature_part t st p = some st1) :
    st1.responses = st.responses ∧ st1.positions = st.positions ∧
    st1.last_temperature_report = st.last_temperature_report ∧
    st1.last_position_report = st.last_position_report := by
  unfold parse_temperature_part at h
  by_cases h1 : pyContains (pyPartition2 p ":").1 "@" = true
  · rw [if_pos h1] at h
    cases h
    exact ⟨rfl, rfl, rfl, rfl⟩
  · rw [if_neg h1] at h
    by_cases h2 : pyContains (pyPartition2 p ":").2 "/" = true
    · rw [if_pos h2] at h
      split at h
      · split at h
        · cases h
          exact ⟨rfl, rfl, rfl, rfl⟩
        · cases h
      · cases h
    · rw [if_neg h2] at h
      split at h
      · cases h
        exact ⟨rfl, rfl, rfl, rfl⟩
      · cases h

/-- The temperature loop never rewrites the recorded raw report. -/
theorem parse_temperature_parts_last (t : ℚ) (ps : List String) :
    ∀ st : MarlinProtocolState,
      (parse_temperature_parts t st ps).1.last_temperature_report =
        st.last_temperature_report := by
  induction ps with
  | nil => intro st; rfl
  | cons p ps ih =>
    intro st
    unfold parse_temperature_parts
    cases hp : parse_temperature_part t st p with
    | none => rfl
    | some stx =>
      show (parse_temperature_parts t stx ps).1.last_temperature_report =
        st.last_temperature_report
      rw [ih stx]
      exact (parse_temperature_part_fields t st p stx hp).2.2.1

/-- `parse_temperature_report` records as raw report the line after the
`" /" → "/"` join, and nothing later overwrites it. -/
theorem parse_temperature_report_last (t : ℚ) (st : MarlinProtocolState)
    (line : String) :
    (parse_temperature_report t st line).1.last_temperature_report =
      some ⟨t, String.mk (pyJoinSlash line.toList)⟩ := by
  unfold parse_temperature_report
  rw [parse_temperature_parts_last]

/-- `parse_position_report` records the incoming line, unmodified, as the
raw report in every outcome. -/
theorem parse_position_report_last (t : ℚ) (st : MarlinProtocolState)
    (line : String) :
    (parse_position_report t st line).1.last_position_report =
      some ⟨t, line⟩ := by
  unfold parse_position_report
  dsimp only
  repeat' split
  all_goals rfl

/-- C10: `MarlinPrinterThread.__enter__` starts the supervisor (it performs
exactly the transition of `start()`) but its return value is `None`, not
the supervisor object, so `with MarlinPrinterThread(port) as printer:`
binds `printer` to `None` and any method call on it fails. -/
theorem enter_starts_but_returns_none (st : PrinterThreadState) :
    st.enter.2 = none ∧ st.enter.1 = st.start :=
  ⟨rfl, rfl⟩

/-- C5: `send_command_receive_response` writes the command, blocks on the
acknowledgement queue with the configured 30-second timeout, fails with the
acknowledgement-timeout error when no acknowledgement is queued within the
window, and otherwise returns the oldest queued acknowledgement line; every
convenience command is that call with fixed text (hence the same timeout). -/
theorem send_command_receive_response_spec (st : MarlinProtocolState)
    (command : String) :
    ((send_command_receive_response st command).written = command)
  ∧ ((send_command_receive_response st command).timeoutSeconds = 30)
  ∧ (st.responses = [] →
      (send_command_receive_response st command).outcome =
        Except.error AckError.ackTimeout)
  ∧ (∀ x rest, st.responses = x :: rest →
      (send_command_receive_response st command).outcome =
        Except.ok (x, { st with responses := rest }))
  ∧ (continous_temperature_reporting st = send_command_receive_response st "M155S1")
  ∧ (disable_temperature_reporting st = send_command_receive_response st "M155S0")
  ∧ (report_position st = send_command_receive_response st "M114")
  ∧ (relative_motion st = send_command_receive_response st "G91") := by
  refine ⟨rfl, rfl, ?_, ?_, rfl, rfl, rfl, rfl⟩
  · intro h
    simp [send_command_receive_response, responsesGet, h]
  · intro x rest h
    simp [send_command_receive_response, responsesGet, h]

theorem send_command_receive_response_spec_witness :
    ((send_command_receive_response MarlinProtocolState.init "M114").outcome =
      Except.error AckError.ackTimeout)
  ∧ ((send_command_receive_response
        { MarlinProtocolState.init with responses := ["ok"] } "M114").outcome =
      Except.ok ("ok", MarlinProtocolState.init)) := by
  constructor
  · exact (send_command_receive_response_spec MarlinProtocolState.init "M114").2.2.1 rfl
  · exact (send_command_receive_response_spec
      { MarlinProtocolState.init with responses := ["ok"] } "M114").2.2.2.1 "ok" [] rfl

/-- C6: `find_serial_port` with criteria matching zero transports fails
with the not-found resolution error; with exactly one match it returns that
transport's identifier; with more than one match it fails with the
ambiguous resolution error. -/
theorem find_serial_port_resolution (kwargs : List (String × String))
    (ports : List PortInfo) :
    (find_serial_ports kwargs ports = [] →
        find_serial_port kwargs ports = Except.error PortResolutionError.notFound)
  ∧ (∀ p, find_serial_ports kwargs ports = [p] →
        find_serial_port kwargs ports = Except.ok p)
  ∧ (1 < (find_serial_ports kwargs ports).length →
        find_serial_port kwargs ports = Except.error PortResolutionError.ambiguous) := by
  refine ⟨?_, ?_, ?_⟩
  · intro h
    simp [find_serial_port, h]
  · intro p h
    simp [find_serial_port, h]
  · intro h
    rcases hm : find_serial_ports kwargs ports with _ | ⟨a, rest⟩
    · rw [hm] at h
      simp at h
    · rcases rest with _ | ⟨b, rest2⟩
      · rw [hm] at h
        simp at h
      · unfold find_serial_port
        rw [hm]

theorem find_serial_port_resolution_witness :
    (find_serial_port [("manufacturer", "NoSuch")]
        [⟨"/dev/ttyACM0", [("manufacturer", "Arduino")]⟩,
         ⟨"/dev/ttyUSB1", [("manufacturer", "FTDI")]⟩] =
      Except.error PortResolutionError.notFound)
  ∧ (find_serial_port [("manufacturer", "Arduino")]
        [⟨"/dev/ttyACM0", [("manufacturer", "Arduino")]⟩,
         ⟨"/dev/ttyUSB1", [("manufacturer", "FTDI")]⟩] =
      Except.ok "/dev/ttyACM0")
  ∧ (find_serial_port []
        [⟨"/dev/ttyACM0", [("manufacturer", "Arduino")]⟩,
         ⟨"/dev/ttyUSB1", [("manufacturer", "FTDI")]⟩] =
      Except.error PortResolutionError.ambiguous) := by
  refine ⟨?_, ?_, ?_⟩
  · exact (find_serial_port_resolution _ _).1 (by decide)
  · exact (find_serial_port_resolution _ _).2.1 "/dev/ttyACM0" (by decide)
  · exact (find_serial_port_resolution _ _).2.2 (by decide)

/-- C2 counterexample: with a self-opened transport
(`MarlinPrinterThread("...")`, so `_close_serial_on_exit` is true),
`stop()` before `start()` is not a no-op — it closes the transport — and a
second `stop()` after a full `start(); stop()` teardown issues a second
transport close, because `self._ser` is never cleared. -/
theorem stop_repeats_transport_close :
    ((PrinterThreadState.init true).stop.1 = PrinterThreadState.init true
      ∧ (PrinterThreadState.init true).stop.2 = [ThreadEffect.closeSerial])
  ∧ ((PrinterThreadState.init true).start.1.stop.1.stop.2 =
      [ThreadEffect.closeSerial]) := by
  decide

/-- C2 amended: calling `stop()` twice produces the same end state as
calling it once and raises no error; however, whenever the supervisor
opened the transport itself, the second call (and likewise a `stop()`
before `start()`) invokes the transport's close again, since the serial
handle is never cleared. With a caller-supplied transport, a second
`stop()` and a `stop()` before `start()` are true no-ops. -/
theorem stop_idempotent_amended (st : PrinterThreadState) :
    (st.stop.1.stop.1 = st.stop.1)
  ∧ (st.stop.1.stop.2 =
      if st.close_serial_on_exit && st.ser_present then [ThreadEffect.closeSerial]
      else [])
  ∧ ((PrinterThreadState.init false).stop = (PrinterThreadState.init false, []))
  ∧ ((PrinterThreadState.init true).stop =
      (PrinterThreadState.init true, [ThreadEffect.closeSerial])) := by
  obtain ⟨c, sp, p, th, stp⟩ := st
  cases c <;> cases sp <;> cases p <;> cases th <;> cases stp <;> decide

/-- C1: on the example position-report line the session's position map is
NOT updated — `handle_line` discards `parse_position_report`'s return value
(`positions = self.parse_position_report(line)` binds a local), so
`self.positions` stays exactly as before — even though the discarded return
value is precisely the correctly merged map the claim describes (X with
value 101 and steps 10100, Y and Z with value 0 and steps 0, E with value 0
and no steps). The code's own comment in `_thread_fn` ("Position will be
saved to printer.positions") documents the claimed behaviour. -/
theorem handle_line_discards_position_report (t : ℚ) (st : MarlinProtocolState) :
    ((handle_line t st "X:101.00 Y:0.00 Z:0.00 E:0.00 Count X:10100 Y:0 Z:0").map
        (fun r => r.1.positions) = some st.positions)
  ∧ ((parse_position_report t st
        "X:101.00 Y:0.00 Z:0.00 E:0.00 Count X:10100 Y:0 Z:0").2.map
        (fun d => (dictGet "X" d, dictGet "Y" d, dictGet "Z" d, dictGet "E" d)) =
      some (some ⟨t, some 101, some 10100⟩, some ⟨t, some 0, some 0⟩,
            some ⟨t, some 0, some 0⟩, some ⟨t, some 0, none⟩)) := by
  constructor <;> rfl

/-- C9 counterexample: the temperature parser stores the raw report only
after replacing `" /"` by `"/"`, so for the example line the recorded text
is `"T:20.38/185.00 @:127"`, not the line as received. -/
theorem last_temperature_report_not_raw :
    ((handle_line 0 MarlinProtocolState.init "T:20.38 /185.00 @:127").map
        (fun r => r.1.last_temperature_report) =
      some (some ⟨0, "T:20.38/185.00 @:127"⟩))
  ∧ ("T:20.38/185.00 @:127" : String) ≠ "T:20.38 /185.00 @:127" := by
  decide

/-- C9 amended: for every telemetry line processed, the session records a
raw report carrying the timestamp and the line text after the whitespace
trim applied by `handle_line`; position reports store that trimmed text
unchanged, while temperature reports store it after the `" /" → "/"`
setpoint join performed before parsing. -/
theorem last_reports_recorded_amended (t : ℚ) (st : MarlinProtocolState)
    (line : String) :
    (pyStartswith (pyStrip line) "T" = true →
      (handle_line t st line).map (fun r => r.1.last_temperature_report) =
        some (some ⟨t, String.mk (pyJoinSlash (pyStrip line).toList)⟩))
  ∧ (pyStartswith (pyStrip line) "X" = true →
      (handle_line t st line).map (fun r => r.1.last_position_report) =
        some (some ⟨t, pyStrip line⟩)) := by
  constructor
  · intro hT
    have hok := pyStartswith_T_not_ok _ hT
    have hne := pyStartswith_T_ne_empty _ hT
    rcases hp : parse_temperature_report t st (pyStrip line) with ⟨st1, b⟩
    have hlast : st1.last_temperature_report =
        some ⟨t, String.mk (pyJoinSlash (pyStrip line).toList)⟩ := by
      have h2 := parse_temperature_report_last t st (pyStrip line)
      rw [hp] at h2
      exact h2
    cases b <;> simp [handle_line, hne, hok, hT, hp, hlast]
  · intro hX
    have hok := pyStartswith_X_not_ok _ hX
    have hT := pyStartswith_X_not_T _ hX
    have hne := pyStartswith_X_ne_empty _ hX
    rcases hp : parse_position_report t st (pyStrip line) with ⟨st1, o⟩
    have hlast : st1.last_position_report = some ⟨t, pyStrip line⟩ := by
      have h2 := parse_position_report_last t st (pyStrip line)
      rw [hp] at h2
      exact h2
    cases o <;> simp [handle_line, hne, hok, hT, hX, hp, hlast]

/-- C3: parsing the example line `T:20.38 /185.00 @:127` stores under key
`T` a sample with actual 20.38 and setpoint 185.00 (the raw report is the
normalized line), the `@` field produces no map entry (every key other than
`T` is untouched); in general a field whose value carries `/` yields the
two numeric parts as actual and setpoint, and a field without `/` yields an
absent setpoint. -/
theorem parse_temperature_report_correct (t : ℚ) (st : MarlinProtocolState) :
    (parse_temperature_report t st "T:20.38 /185.00 @:127" =
      ({ st with
          temperatures :=
            dictSet "T" ⟨t, mkRat 2038 100, some (mkRat 185 1)⟩ st.temperatures,
          last_temperature_report := some ⟨t, "T:20.38/185.00 @:127"⟩ }, true))
  ∧ (dictGet "T" (dictSet "T"
        (⟨t, mkRat 2038 100, some (mkRat 185 1)⟩ : Temperature) st.temperatures) =
      some ⟨t, mkRat 2038 100, some (mkRat 185 1)⟩)
  ∧ (∀ k, k ≠ "T" →
      dictGet k (dictSet "T"
        (⟨t, mkRat 2038 100, some (mkRat 185 1)⟩ : Temperature) st.temperatures) =
      dictGet k st.temperatures)
  ∧ (∀ part st1 a b qa qb,
      pyContains (pyPartition2 part ":").1 "@" = false →
      pyContains (pyPartition2 part ":").2 "/" = true →
      pySplitChar (pyPartition2 part ":").2 '/' = [a, b] →
      pyFloat a = some qa → pyFloat b = some qb →
      parse_temperature_part t st1 part =
        some { st1 with temperatures := dictSet (pyPartition2 part ":").1 ⟨t, qa, some qb⟩ st1.temperatures })
  ∧ (∀ part st1 qa,
      pyContains (pyPartition2 part ":").1 "@" = false →
      pyContains (pyPartition2 part ":").2 "/" = false →
      pyFloat (pyPartition2 part ":").2 = some qa →
      parse_temperature_part t st1 part =
        some { st1 with temperatures := dictSet (pyPartition2 part ":").1 ⟨t, qa, none⟩ st1.temperatures }) := by
  refine ⟨rfl, dictGet_dictSet_self _ _ _, ?_, ?_, ?_⟩
  · intro k hk
    exact dictGet_dictSet_ne _ _ _ _ hk
  · intro part st1 a b qa qb h1 h2 h3 h4 h5
    unfold parse_temperature_part
    rw [if_neg (by rw [h1]; exact Bool.false_ne_true), if_pos h2]
    simp only [h3, h4, h5]
  · intro part st1 qa h1 h2 h3
    unfold parse_temperature_part
    rw [if_neg (by rw [h1]; exact Bool.false_ne_true),
      if_neg (by rw [h2]; exact Bool.false_ne_true)]
    simp only [h3]

theorem parse_temperature_report_correct_witness :
    (parse_temperature_report 0 MarlinProtocolState.init "T:20.38 /185.00 @:127" =
      ({ MarlinProtocolState.init with
          temperatures := [("T", ⟨0, mkRat 2038 100, some (mkRat 185 1)⟩)],
          last_temperature_report := some ⟨0, "T:20.38/185.00 @:127"⟩ }, true))
  ∧ (parse_temperature_part 0 MarlinProtocolState.init "B:60.5/70.25" =
      some { MarlinProtocolState.init with
        temperatures := [("B", ⟨0, mkRat 605 10, some (mkRat 7025 100)⟩)] })
  ∧ (parse_temperature_part 0 MarlinProtocolState.init "A:21.5" =
      some { MarlinProtocolState.init with
        temperatures := [("A", ⟨0, mkRat 215 10, none⟩)] }) := by
  refine ⟨?_, ?_, ?_⟩
  · exact (parse_temperature_report_correct 0 MarlinProtocolState.init).1
  · have h := (parse_temperature_report_correct 0 MarlinProtocolState.init).2.2.2.1
      "B:60.5/70.25" MarlinProtocolState.init "60.5" "70.25" (mkRat 605 10)
      (mkRat 7025 100) (by decide) (by decide) (by decide) (by decide) (by decide)
    rw [h]
    decide
  · have h := (parse_temperature_report_correct 0 MarlinProtocolState.init).2.2.2.2
      "A:21.5" MarlinProtocolState.init (mkRat 215 10) (by decide) (by decide) (by decide)
    rw [h]
    decide

/-- C4: dispatch order of `handle_line` — a trimmed line starting with
`ok` is pushed onto the acknowledgement queue and is never parsed as
telemetry (the whole effect is the queue push); a line starting with `T` is
handled by the temperature parser; a line starting with `X` is handled by
the position parser; any other non-empty line is logged as unknown and
discarded with no state change. -/
theorem handle_line_dispatch (t : ℚ) (st : MarlinProtocolState) (line : String)
    (hne : pyStrip line ≠ "") :
    (pyStartswith (pyStrip line) "ok" = true →
        st.responses.length < RESPONSES_MAXSIZE →
        handle_line t st line =
          some ({ st with responses := st.responses ++ [pyStrip line] }, []))
  ∧ (pyStartswith (pyStrip line) "T" = true →
        handle_line t st line =
          some ((parse_temperature_report t st (pyStrip line)).1,
            if (parse_temperature_report t st (pyStrip line)).2 then []
            else [LineEffect.logParseEx (pyStrip line)]))
  ∧ (pyStartswith (pyStrip line) "X" = true →
        handle_line t st line =
          some ((parse_position_report t st (pyStrip line)).1,
            if (parse_position_report t st (pyStrip line)).2.isSome then []
            else [LineEffect.logParseEx (pyStrip line)]))
  ∧ (pyStartswith (pyStrip line) "ok" = false →
      pyStartswith (pyStrip line) "T" = false →
      pyStartswith (pyStrip line) "X" = false →
        handle_line t st line =
          some (st, [LineEffect.logUnknownLine (pyStrip line)])) := by
  refine ⟨?_, ?_, ?_, ?_⟩
  · intro hok hcap
    exact handle_line_ok_case t st line hok hcap
  · intro hT
    have hok := pyStartswith_T_not_ok _ hT
    rcases hp : parse_temperature_report t st (pyStrip line) with ⟨st1, b⟩
    cases b <;> simp [handle_line, hne, hok, hT, hp]
  · intro hX
    have hok := pyStartswith_X_not_ok _ hX
    have hT := pyStartswith_X_not_T _ hX
    rcases hp : parse_position_report t st (pyStrip line) with ⟨st1, o⟩
    cases o <;> simp [handle_line, hne, hok, hT, hX, hp]
  · intro h1 h2 h3
    simp [handle_line, hne, h1, h2, h3]

theorem handle_line_dispatch_witness :
    (handle_line 0 MarlinProtocolState.init "ok" =
      some ({ MarlinProtocolState.init with responses := ["ok"] }, []))
  ∧ (handle_line 0 MarlinProtocolState.init "T:21.5" =
      some ({ MarlinProtocolState.init with
          temperatures := [("T", ⟨0, mkRat 215 10, none⟩)],
          last_temperature_report := some ⟨0, "T:21.5"⟩ }, []))
  ∧ (handle_line 0 MarlinProtocolState.init "X:1.5" =
      some ({ MarlinProtocolState.init with
          last_position_report := some ⟨0, "X:1.5"⟩ }, []))
  ∧ (handle_line 0 MarlinProtocolState.init "echo:busy" =
      some (MarlinProtocolState.init, [LineEffect.logUnknownLine "echo:busy"])) := by
  refine ⟨?_, ?_, ?_, ?_⟩
  · have h := (handle_line_dispatch 0 MarlinProtocolState.init "ok"
      (by decide)).1 (by decide) (by decide)
    rw [h]
    decide
  · have h := (handle_line_dispatch 0 MarlinProtocolState.init "T:21.5"
      (by decide)).2.1 (by decide)
    rw [h]
    decide
  · have h := (handle_line_dispatch 0 MarlinProtocolState.init "X:1.5"
      (by decide)).2.2.1 (by decide)
    rw [h]
    decide
  · have h := (handle_line_dispatch 0 MarlinProtocolState.init "echo:busy"
      (by decide)).2.2.2 (by decide) (by decide) (by decide)
    rw [h]
    decide

/-- C7: `handle_line` never raises out of a parse failure — on any
non-acknowledgement line it returns normally, and when the temperature or
position parser fails the partially-updated state is kept and the
offending (trimmed) line is logged together with the parse-error message. -/
theorem handle_line_parse_failure_nonfatal (t : ℚ) (st : MarlinProtocolState)
    (line : String) (hok : pyStartswith (pyStrip line) "ok" = false) :
    ((handle_line t st line).isSome = true)
  ∧ (pyStartswith (pyStrip line) "T" = true →
      (parse_temperature_report t st (pyStrip line)).2 = false →
      handle_line t st line =
        some ((parse_temperature_report t st (pyStrip line)).1,
          [LineEffect.logParseEx (pyStrip line)]))
  ∧ (pyStartswith (pyStrip line) "X" = true →
      (parse_position_report t st (pyStrip line)).2 = none →
      handle_line t st line =
        some ((parse_position_report t st (pyStrip line)).1,
          [LineEffect.logParseEx (pyStrip line)])) := by
  refine ⟨?_, ?_, ?_⟩
  · by_cases he : pyStrip line = ""
    · simp [handle_line, he]
    · by_cases hT : pyStartswith (pyStrip line) "T" = true
      · rcases hp : parse_temperature_report t st (pyStrip line) with ⟨st1, b⟩
        cases b <;> simp [handle_line, he, hok, hT, hp]
      · by_cases hX : pyStartswith (pyStrip line) "X" = true
        · rcases hp : parse_position_report t st (pyStrip line) with ⟨st1, o⟩
          cases o <;> simp [handle_line, he, hok, hT, hX, hp]
        · simp [handle_line, he, hok, hT, hX]
  · intro hT hfail
    have hne := pyStartswith_T_ne_empty _ hT
    rcases hp : parse_temperature_report t st (pyStrip line) with ⟨st1, b⟩
    rw [hp] at hfail
    cases hfail
    simp [handle_line, hne, hok, hT, hp]
  · intro hX hfail
    have hne := pyStartswith_X_ne_empty _ hX
    have hT := pyStartswith_X_not_T _ hX
    rcases hp : parse_position_report t st (pyStrip line) with ⟨st1, o⟩
    rw [hp] at hfail
    cases hfail
    simp [handle_line, hne, hok, hT, hX, hp]

theorem handle_line_parse_failure_nonfatal_witness :
    ((handle_line 0 MarlinProtocolState.init "Y:nope").isSome = true)
  ∧ (handle_line 0 MarlinProtocolState.init "T:abc" =
      some ({ MarlinProtocolState.init with
          last_temperature_report := some ⟨0, "T:abc"⟩ },
        [LineEffect.logParseEx "T:abc"]))
  ∧ (handle_line 0 MarlinProtocolState.init "X:abc" =
      some ({ MarlinProtocolState.init with
          last_position_report := some ⟨0, "X:abc"⟩ },
        [LineEffect.logParseEx "X:abc"])) := by
  refine ⟨?_, ?_, ?_⟩
  · exact (handle_line_parse_failure_nonfatal 0 MarlinProtocolState.init
      "Y:nope" (by decide)).1
  · have h := (handle_line_parse_failure_nonfatal 0 MarlinProtocolState.init
      "T:abc" (by decide)).2.1 (by decide) (by decide)
    rw [h]
    decide
  · have h := (handle_line_parse_failure_nonfatal 0 MarlinProtocolState.init
      "X:abc" (by decide)).2.2 (by decide) (by decide)
    rw [h]
    decide

/-- One acknowledgement round-trip starting from an empty queue: the line
is queued by `handle_line` and immediately consumed by the blocking get. -/
theorem feedAndAwait_ok (t : ℚ) (cmd : String) (st : MarlinProtocolState)
    (l : String) (hq : st.responses = []) (hok : pyStartswith l "ok" = true)
    (hs : pyStrip l = l) :
    feedAndAwait t cmd st l = some (l, { st with responses := [] }) := by
  have hok2 : pyStartswith (pyStrip l) "ok" = true := by rw [hs]; exact hok
  have hcap : st.responses.length < RESPONSES_MAXSIZE := by
    rw [hq]
    simp [RESPONSES_MAXSIZE]
  have h1 := handle_line_ok_case t st l hok2 hcap
  rw [hs] at h1
  unfold feedAndAwait
  rw [h1]
  simp [send_command_receive_response, responsesGet, hq]

/-- C8: feeding N acknowledgement lines into the session yields exactly N
successful `send_command_receive_response` completions returning those
lines in arrival order, with no reordering. -/
theorem ack_round_trip_fifo (t : ℚ) (cmd : String) (acks : List String)
    (st : MarlinProtocolState) (hq : st.responses = [])
    (hok : ∀ l ∈ acks, pyStartswith l "ok" = true ∧ pyStrip l = l) :
    (feedAndAwaitAll t cmd st acks).map Prod.fst = some acks := by
  induction acks generalizing st with
  | nil => rfl
  | cons l ls ih =>
    have hl := hok l (List.mem_cons_self l ls)
    have hls : ∀ x ∈ ls, pyStartswith x "ok" = true ∧ pyStrip x = x :=
      fun x hx => hok x (List.mem_cons_of_mem l hx)
    unfold feedAndAwaitAll
    rw [feedAndAwait_ok t cmd st l hq hl.1 hl.2]
    have ih2 := ih ({ st with responses := [] }) rfl hls
    rcases hall : feedAndAwaitAll t cmd { st with responses := ([] : List String) } ls
      with _ | ⟨ls2, st2⟩
    · rw [hall] at ih2
      simp at ih2
    · rw [hall] at ih2
      simp at ih2
      dsimp only
      rw [hall]
      simp [ih2]

theorem ack_round_trip_fifo_witness :
    (feedAndAwaitAll 0 "M114" MarlinProtocolState.init
        ["ok", "ok T:1", "okok"]).map Prod.fst =
      some ["ok", "ok T:1", "okok"] :=
  ack_round_trip_fifo 0 "M114" ["ok", "ok T:1", "okok"] MarlinProtocolState.init
    rfl (by decide)

theorem last_reports_recorded_amended_witness :
    ((handle_line 0 MarlinProtocolState.init "T:20.38 /185.00 @:127").map
        (fun r => r.1.last_temperature_report) =
      some (some ⟨0, "T:20.38/185.00 @:127"⟩))
  ∧ ((handle_line 0 MarlinProtocolState.init "X:1.5 Y:2").map
        (fun r => r.1.last_position_report) =
      some (some ⟨0, "X:1.5 Y:2"⟩)) := by
  constructor
  · have h := (last_reports_recorded_amended 0 MarlinProtocolState.init
      "T:20.38 /185.00 @:127").1 (by decide)
    rw [h]
    decide
  · have h := (last_reports_recorded_amended 0 MarlinProtocolState.init
      "X:1.5 Y:2").2 (by decide)
    rw [h]
    decide

end UliSerial
